import Mathlib

/-!
Verification of the onchain-alerts pattern-detection pipeline.

This file gives a shallow embedding of the core logic of the repository:

* `signals_volume2.py` — `RateLimiter.wait_if_needed`, `PatternDetector`
  (`is_candle_closed`, `prepare_data`, `analyze_candles`) and the
  liquidity/FDV guard of `MarketDataProcessor.process_addresses`;
* `discord_alerts.py` — the dedup/delivery logic of `monitor_alerts`
  together with the retention reset of `cleanup_sent_alerts`.

Python floats are idealized as exact rationals (volumes as nonnegative
rationals `ℚ≥0`); the geometric mean `prod ** (1 / len)` is the real
number `prod ^ (1 / len)` in `ℝ≥0`.  Code paths that raise an exception
(which the surrounding pipeline catches and turns into a skip) are
modelled as `Option.none`.

A crucial point of the embedding is the pandas indexing semantics of
`PatternDetector.analyze_candles`:

* `df.iloc[::-1]` reverses the rows but keeps the original integer
  index labels, so on the reversed frame row at position `p` carries
  label `n - 1 - p` (`n` = number of rows of the working frame);
* `for i, row in df.iterrows()` yields the *labels* in frame order, so
  after the `break` the variable `i` holds the label `n - 1 - j` where
  `j` is the position (in the reversed frame) of the first closed row;
* `df.loc[:i, 'volume']` slices the reversed frame from its first row
  down to the row labelled `i` inclusive, i.e. positions `0 .. j`;
* `df.iloc[i]` is positional on the reversed frame: it is the row at
  position `n - 1 - j`, i.e. the row at position `j` of the working
  frame in its original (oldest-first) order.
-/

open scoped NNReal NNRat

set_option maxRecDepth 200000

namespace OnchainAlerts

/-- One OHLCV candle as delivered by the candle source: a timestamp in
integer seconds and open/high/low/close prices plus a nonnegative
volume (floats idealized as rationals). -/
structure Candle where
  timestamp : ℤ
  open_ : ℚ
  high : ℚ
  low : ℚ
  close : ℚ
  volume : ℚ≥0
deriving DecidableEq

instance (p q : ℚ≥0) : Decidable (p ≤ q) := LinearOrder.decidableLE p q

/-- Cast of a nonnegative rational into the nonnegative reals, written
explicitly so that every comparison of the embedding has a stable
syntactic head. -/
def nnq (q : ℚ≥0) : ℝ≥0 := ⟨(q : ℝ), NNRat.cast_nonneg q⟩

lemma nnq_coe (q : ℚ≥0) : ((nnq q : ℝ≥0) : ℝ) = (q : ℝ) := rfl

lemma nnq_lt {p q : ℚ≥0} : nnq p < nnq q ↔ p < q := by
  rw [← NNReal.coe_lt_coe, nnq_coe, nnq_coe, NNRat.cast_lt]

lemma nnq_le {p q : ℚ≥0} : nnq p ≤ nnq q ↔ p ≤ q := by
  rw [← NNReal.coe_le_coe, nnq_coe, nnq_coe, NNRat.cast_le]

lemma nnq_inj {p q : ℚ≥0} : nnq p = nnq q ↔ p = q := by
  constructor
  · intro h
    have h1 : ((p : ℚ) : ℝ) = ((q : ℚ) : ℝ) := by
      have := congrArg (fun x : ℝ≥0 => (x : ℝ)) h
      simpa [nnq_coe, Rat.cast_nnratCast] using this
    exact_mod_cast h1
  · intro h; rw [h]

lemma nnq_mul (p q : ℚ≥0) : nnq (p * q) = nnq p * nnq q := by
  apply NNReal.coe_injective
  rw [NNReal.coe_mul, nnq_coe, nnq_coe, nnq_coe, ← Rat.cast_nnratCast,
    ← Rat.cast_nnratCast p, ← Rat.cast_nnratCast q, NNRat.coe_mul, Rat.cast_mul]

lemma nnq_one : nnq 1 = 1 := by
  apply NNReal.coe_injective
  rw [nnq_coe]
  simp

lemma nnq_zero : nnq 0 = 0 := by
  apply NNReal.coe_injective
  rw [nnq_coe]
  simp

lemma nnq_pow (p : ℚ≥0) (n : ℕ) : nnq (p ^ n) = nnq p ^ n := by
  induction n with
  | zero => simpa using nnq_one
  | succ k ih => rw [pow_succ, nnq_mul, ih, pow_succ]

lemma nnq_ofNat (n : ℕ) [n.AtLeastTwo] :
    nnq (OfNat.ofNat n) = (OfNat.ofNat n : ℝ≥0) := by
  apply NNReal.coe_injective
  rw [nnq_coe]
  simp

/-- Geometric mean used by `analyze_candles`:
`prev_volumes.prod() ** (1 / len(prev_volumes))`. -/
noncomputable def geoMean (l : List ℚ≥0) : ℝ≥0 :=
  nnq l.prod ^ (1 / (l.length : ℝ))

lemma geoMean_nil : geoMean [] = 1 := by
  simp [geoMean, nnq_one]

lemma length_cast_pos {l : List ℚ≥0} (h : l ≠ []) : (0 : ℝ) < (l.length : ℝ) := by
  have : 0 < l.length := List.length_pos.mpr h
  exact_mod_cast this

lemma geoMean_lt_iff {l : List ℚ≥0} (h : l ≠ []) (c : ℝ≥0) :
    geoMean l < c ↔ nnq l.prod < c ^ l.length := by
  rw [geoMean, one_div, NNReal.rpow_inv_lt_iff (length_cast_pos h),
    NNReal.rpow_natCast]

lemma le_geoMean_iff {l : List ℚ≥0} (h : l ≠ []) (c : ℝ≥0) :
    c ≤ geoMean l ↔ c ^ l.length ≤ nnq l.prod := by
  rw [geoMean, one_div, NNReal.le_rpow_inv_iff (length_cast_pos h),
    NNReal.rpow_natCast]

lemma geoMean_rpow_len {l : List ℚ≥0} (h : l ≠ []) :
    geoMean l ^ ((l.length : ℕ) : ℝ) = nnq l.prod := by
  rw [geoMean, ← NNReal.rpow_mul, one_div, inv_mul_cancel₀ (length_cast_pos h).ne',
    NNReal.rpow_one]

lemma geoMean_mul_lt_iff {l : List ℚ≥0} (h : l ≠ []) (c d : ℝ≥0) :
    geoMean l * c < d ↔ nnq l.prod * c ^ l.length < d ^ l.length := by
  rw [← NNReal.rpow_lt_rpow_iff (length_cast_pos h) (x := geoMean l * c),
    NNReal.mul_rpow, geoMean_rpow_len h, NNReal.rpow_natCast, NNReal.rpow_natCast]

lemma geoMean_eq_of_pow {l : List ℚ≥0} {a : ℚ≥0} (hl : l ≠ [])
    (h : l.prod = a ^ l.length) : geoMean l = nnq a := by
  rw [geoMean, h, nnq_pow, ← NNReal.rpow_natCast (nnq a) l.length,
    ← NNReal.rpow_mul, mul_one_div, div_self (length_cast_pos hl).ne',
    NNReal.rpow_one]

lemma geoMean_lt_nnq {l : List ℚ≥0} (q : ℚ≥0) (h : l ≠ []) :
    geoMean l < nnq q ↔ l.prod < q ^ l.length := by
  rw [geoMean_lt_iff h, ← nnq_pow, nnq_lt]

lemma nnq_le_geoMean {l : List ℚ≥0} (q : ℚ≥0) (h : l ≠ []) :
    nnq q ≤ geoMean l ↔ q ^ l.length ≤ l.prod := by
  rw [le_geoMean_iff h, ← nnq_pow, nnq_le]

lemma geoMean_mul_nnq_lt {l : List ℚ≥0} (q r : ℚ≥0) (h : l ≠ []) :
    geoMean l * nnq q < nnq r ↔ l.prod * q ^ l.length < r ^ l.length := by
  rw [geoMean_mul_lt_iff h, ← nnq_pow, ← nnq_pow, ← nnq_mul, nnq_lt]

instance decGeoMeanLt (l : List ℚ≥0) (q : ℚ≥0) : Decidable (geoMean l < nnq q) :=
  if h : l = [] then
    decidable_of_iff ((1 : ℚ≥0) < q) (by subst h; rw [geoMean_nil, ← nnq_one, nnq_lt])
  else
    decidable_of_iff (l.prod < q ^ l.length) (geoMean_lt_nnq q h).symm

instance decLeGeoMean (l : List ℚ≥0) (q : ℚ≥0) : Decidable (nnq q ≤ geoMean l) :=
  if h : l = [] then
    decidable_of_iff (q ≤ 1) (by subst h; rw [geoMean_nil, ← nnq_one, nnq_le])
  else
    decidable_of_iff (q ^ l.length ≤ l.prod) (nnq_le_geoMean q h).symm

instance decGeoMeanMulLt (l : List ℚ≥0) (q r : ℚ≥0) :
    Decidable (geoMean l * nnq q < nnq r) :=
  if h : l = [] then
    decidable_of_iff (q < r)
      (by subst h; rw [geoMean_nil, one_mul, nnq_lt])
  else
    decidable_of_iff (l.prod * q ^ l.length < r ^ l.length) (geoMean_mul_nnq_lt q r h).symm

/-- PatternDetector.is_candle_closed: a candle is closed iff its
timestamp is an exact multiple of 300 seconds and lies strictly before
the current wall-clock time `now`. -/
def is_candle_closed (now : ℚ) (candle : Candle) : Bool :=
  candle.timestamp % 300 == 0 && decide ((candle.timestamp : ℚ) < now)

/-- PatternDetector.prepare_data: keep the whole series when the last
candle is closed, otherwise drop the last row.  `pd.DataFrame` on an
empty input followed by `df.iloc[-1]` raises `IndexError`, modelled as
`none`. -/
def prepare_data (now : ℚ) (ohlcv : List Candle) : Option (List Candle) :=
  match ohlcv.getLast? with
  | none => none
  | some last => if is_candle_closed now last then some ohlcv else some ohlcv.dropLast

/-- Invalid-result reasons of `analyze_candles`.  `insufficient_candles`
is the source string verbatim; `below_volume_floor` stands for the
source string used when the average is below 10, and
`volume_not_elevated` for the source string
`last_candle_volume_not_higher_than_average`. -/
inductive Reason where
  | insufficient_candles
  | below_volume_floor
  | volume_not_elevated
deriving DecidableEq

/-- Result dictionary of `analyze_candles`: either
`{'valid': False, 'reason': ...}` or
`{'valid': True, 'timestamp': ..., 'last_candle_volume': ...,
'average_previous_volume': ...}`. -/
inductive PatternResult where
  | invalid (reason : Reason)
  | valid (timestamp : ℤ) (last_candle_volume : ℚ≥0) (average_previous_volume : ℝ≥0)

def PatternResult.isValid : PatternResult → Bool
  | .invalid _ => false
  | .valid _ _ _ => true

def PatternResult.reasonOf : PatternResult → Option Reason
  | .invalid r => some r
  | .valid _ _ _ => none

def PatternResult.lastVol : PatternResult → Option ℚ≥0
  | .invalid _ => none
  | .valid _ v _ => some v

def PatternResult.avgVol : PatternResult → Option ℝ≥0
  | .invalid _ => none
  | .valid _ _ a => some a

def PatternResult.tsOf : PatternResult → Option ℤ
  | .invalid _ => none
  | .valid t _ _ => some t

/-- Continuation of `analyze_candles` after the `for`/`else` search on
the reversed working frame `rev` (most recent candle first), as a
function of the search outcome `oj`: `none` is the loop's `else` branch
and `some j` the `break` at position `j` of `rev`.  The loop label `i`
then equals `rev.length - 1 - j`, so `df.loc[:i, 'volume']` is
`(rev.take (j+1)).map volume` and `df.iloc[i]` is the row at position
`rev.length - 1 - j` of `rev` (a `get?` miss would be an `IndexError`,
modelled as `none`).  The conditional
`effective_avg_volume = avg if avg >= 999 else avg * 7` is inlined into
the two comparison branches. -/
noncomputable def analyzeFound (rev : List Candle) (oj : Option ℕ) : Option PatternResult :=
  match oj with
  | none => some (.invalid .insufficient_candles)
  | some j =>
      let prev_volumes : List ℚ≥0 := (rev.take (j + 1)).map Candle.volume
      let avg_volume : ℝ≥0 := geoMean prev_volumes
      if avg_volume < nnq 10 then some (.invalid .below_volume_floor)
      else
        match rev.get? (rev.length - 1 - j) with
        | none => none
        | some picked =>
            if nnq 999 ≤ avg_volume then
              if avg_volume < nnq picked.volume then
                some (.valid picked.timestamp picked.volume avg_volume)
              else some (.invalid .volume_not_elevated)
            else
              if avg_volume * nnq 7 < nnq picked.volume then
                some (.valid picked.timestamp picked.volume avg_volume)
              else some (.invalid .volume_not_elevated)

/-- Body of `analyze_candles` on the reversed working frame: find the
first closed row scanning from the most recent entry, then score. -/
noncomputable def analyzeWorking (now : ℚ) (rev : List Candle) : Option PatternResult :=
  analyzeFound rev (rev.findIdx? (is_candle_closed now))

/-- PatternDetector.analyze_candles as a function of the wall-clock
time `now` and the raw candle series. -/
noncomputable def analyze_candles (now : ℚ) (ohlcv : List Candle) : Option PatternResult :=
  match prepare_data now ohlcv with
  | none => none
  | some working => analyzeWorking now working.reverse

/-- The target candle of a series: the first closed candle of the
working series scanning from the most recent entry to the oldest (the
row the `for i, row in df.iterrows()` loop breaks on). -/
def targetCandle (now : ℚ) (ohlcv : List Candle) : Option Candle :=
  match prepare_data now ohlcv with
  | none => none
  | some working => working.reverse.find? (is_candle_closed now)

/-- Volumes of the inclusive range from the target candle down to the
oldest entry of the working series, following the specification's words
for `average_previous_volume` (target candle and all strictly older
candles); written for comparison with the range the code actually
averages. -/
def specRangeVolumes (now : ℚ) (ohlcv : List Candle) : Option (List ℚ≥0) :=
  match prepare_data now ohlcv with
  | none => none
  | some working =>
      (working.reverse.findIdx? (is_candle_closed now)).map
        (fun j => (working.reverse.drop j).map Candle.volume)

/-- Loop `while self.timestamps and current_time - self.timestamps[0] > 60:
popleft()` of `RateLimiter.wait_if_needed`; the deque is a list with its
oldest entry first. -/
def pruneStamps (now : ℚ) : List ℚ → List ℚ
  | [] => []
  | t :: rest => if 60 < now - t then pruneStamps now rest else t :: rest

/-- RateLimiter.wait_if_needed for a limiter configured with
`calls_per_minute = cpm`, invoked when the wall clock reads `now`, on a
deque state `ts`.  Returns the new deque and the completion (return)
time of the call: after pruning, when at least `cpm` timestamps remain
the call sleeps for `60 - (now - ts[0])` seconds if that is positive.
The appended timestamp is `now`, the value captured at entry (the code
appends `current_time`, not the post-sleep clock).  The `head? = none`
case cannot arise for `cpm ≥ 1` (in Python it would be an `IndexError`,
and `RateLimiter(0)` already fails at construction). -/
def wait_if_needed (cpm : ℕ) (ts : List ℚ) (now : ℚ) : List ℚ × ℚ :=
  let pruned := pruneStamps now ts
  let done :=
    if cpm ≤ pruned.length then
      match pruned.head? with
      | some t0 => if 0 < 60 - (now - t0) then now + (60 - (now - t0)) else now
      | none => now
    else now
  (pruned ++ [now], done)

/-- Deque reached after a sequence of `wait_if_needed` calls invoked at
the given wall-clock times. -/
def runLimiter (cpm : ℕ) (ts : List ℚ) : List ℚ → List ℚ
  | [] => ts
  | now :: rest => runLimiter cpm (wait_if_needed cpm ts now).1 rest

/-- Number of recorded timestamps lying in the trailing 60-second
window ending at time `e` (strictly newer than `e - 60`). -/
def countWindow (e : ℚ) (ts : List ℚ) : ℕ :=
  (ts.filter (fun t => decide (e - t < 60) && decide (t ≤ e))).length

/-- One pair record of a DexScreener response, with the fields the
processor reads (floats idealized as rationals). -/
structure PairRec where
  pairAddress : String
  symbol : String
  name : String
  baseAddress : String
  priceUsd : ℚ
  liquidityUsd : ℚ
  volumeH24 : ℚ
  url : String
  fdv : ℚ
deriving DecidableEq

/-- Parsed DexScreener response for one address: the `pairs` array and
the `pair` key (`none` models an absent key, whose access raises
`KeyError` and makes the processor skip the address). -/
structure DexResponse where
  pairs : List PairRec
  pairMain : Option PairRec
deriving DecidableEq

/-- PairSnapshot (`pair_data` in the source), built in the candle pass
from `dex_data['pairs'][0]`. -/
structure PairSnapshot where
  symbol : String
  name : String
  CA : String
  price : ℚ
  liquidity : ℚ
  volume_24h : ℚ
  url : String
  fdv : ℚ
deriving DecidableEq

/-- Metadata-pass admission test of `process_addresses`: the address
survives iff the response has a nonempty `pairs` array, the `pair` key
is present, and the guard `liquidity > fdv * 0.8` does not fire. -/
def passes_metadata (resp : DexResponse) : Bool :=
  if resp.pairs.length > 0 then
    match resp.pairMain with
    | none => false
    | some p => if p.liquidityUsd > p.fdv * 0.8 then false else true
  else false

/-- First pass of `process_addresses`: the queue `dex_data_queue` of
addresses (with their responses) that survive the metadata pass, where
`fetch` models the rate-limited DexScreener call (`none` = request or
parse failure, which skips the address). -/
def metadata_queue (fetch : String → Option DexResponse) (addrs : List String) :
    List (String × DexResponse) :=
  addrs.filterMap fun a =>
    (fetch a).bind fun r => if passes_metadata r then some (a, r) else none

/-- Construction of `pair_data` from `dex_data['pairs'][0]` in the
candle pass. -/
def pair_snapshot (p : PairRec) : PairSnapshot :=
  ⟨p.symbol, p.name, p.baseAddress, p.priceUsd, p.liquidityUsd, p.volumeH24, p.url, p.fdv⟩

/-- PairSnapshots constructed during the candle pass, one per queued
address whose response has a first pair. -/
def candle_pass_snapshots (fetch : String → Option DexResponse) (addrs : List String) :
    List PairSnapshot :=
  (metadata_queue fetch addrs).filterMap fun ar => ar.2.pairs.head?.map pair_snapshot

/-- Python's `str.strip()`: remove leading and trailing whitespace. -/
def pyStrip (s : String) : String :=
  ⟨((s.data.dropWhile Char.isWhitespace).reverse.dropWhile Char.isWhitespace).reverse⟩

/-- Test that the first list is a prefix of the second, character by
character. -/
def charsLeadWith : List Char → List Char → Bool
  | [], _ => true
  | _ :: _, [] => false
  | p :: ps, c :: cs => (p == c) && charsLeadWith ps cs

/-- Python's `str.startswith(pre)` on `s`. -/
def pyStartsWith (s pre : String) : Bool := charsLeadWith pre.data s.data

/-- Dedup key extraction of `monitor_alerts`: scanning the lines of an
alert block in order, `trade_url` ends up holding the stripped text of
the last line that starts with `"Trade URL: https://"`. -/
def tradeURLOf (block : List String) : Option String :=
  ((block.filter fun l => pyStartsWith l "Trade URL: https://").getLast?).map pyStrip

/-- Dedup/delivery step of `monitor_alerts` for one parsed alert block:
deliver iff the block is nonempty, a trade URL was captured, and that
key is truthy and not in `sent_alerts`; on delivery the key is added to
the seen set (modelled as a list).  Returns (delivered?, new seen set). -/
def deliver_block (seen : List String) (block : List String) : Bool × List String :=
  if block = [] then (false, seen)
  else
    match tradeURLOf block with
    | none => (false, seen)
    | some url =>
        if url ≠ "" ∧ url ∉ seen then (true, url :: seen) else (false, seen)

/-- Repeated processing of the same alert block through the dedup
logic, counting deliveries and threading the seen set. -/
def repeat_block : ℕ → List String → List String → ℕ × List String
  | 0, seen, _ => (0, seen)
  | n + 1, seen, block =>
      let d := deliver_block seen block
      let r := repeat_block n d.2 block
      ((if d.1 then 1 else 0) + r.1, r.2)

lemma analyze_candles_eq_working {now : ℚ} {ohlcv working : List Candle}
    (h : prepare_data now ohlcv = some working) :
    analyze_candles now ohlcv = analyzeWorking now working.reverse := by
  rw [analyze_candles, h]

lemma analyzeWorking_insufficient {now : ℚ} {rev : List Candle}
    (hj : rev.findIdx? (is_candle_closed now) = none) :
    analyzeWorking now rev = some (.invalid .insufficient_candles) := by
  rw [analyzeWorking, hj]
  rfl

lemma analyzeWorking_floor {now : ℚ} {rev : List Candle} {j : ℕ}
    (hj : rev.findIdx? (is_candle_closed now) = some j)
    (hfloor : geoMean ((rev.take (j + 1)).map Candle.volume) < nnq 10) :
    analyzeWorking now rev = some (.invalid .below_volume_floor) := by
  rw [analyzeWorking, hj]
  simp only [analyzeFound, if_pos hfloor]

lemma analyzeWorking_valid {now : ℚ} {rev : List Candle} {j : ℕ} {picked : Candle}
    (hj : rev.findIdx? (is_candle_closed now) = some j)
    (hfloor : ¬ geoMean ((rev.take (j + 1)).map Candle.volume) < nnq 10)
    (hpick : rev.get? (rev.length - 1 - j) = some picked)
    (hcmp : if nnq 999 ≤ geoMean ((rev.take (j + 1)).map Candle.volume) then
        geoMean ((rev.take (j + 1)).map Candle.volume) < nnq picked.volume
      else geoMean ((rev.take (j + 1)).map Candle.volume) * nnq 7 < nnq picked.volume) :
    analyzeWorking now rev =
      some (.valid picked.timestamp picked.volume
        (geoMean ((rev.take (j + 1)).map Candle.volume))) := by
  rw [analyzeWorking, hj]
  simp only [analyzeFound, if_neg hfloor, hpick]
  by_cases h999 : nnq 999 ≤ geoMean ((rev.take (j + 1)).map Candle.volume)
  · rw [if_pos h999] at hcmp ⊢
    rw [if_pos hcmp]
  · rw [if_neg h999] at hcmp ⊢
    rw [if_pos hcmp]

lemma analyzeWorking_not_elevated {now : ℚ} {rev : List Candle} {j : ℕ} {picked : Candle}
    (hj : rev.findIdx? (is_candle_closed now) = some j)
    (hfloor : ¬ geoMean ((rev.take (j + 1)).map Candle.volume) < nnq 10)
    (hpick : rev.get? (rev.length - 1 - j) = some picked)
    (hcmp : ¬ (if nnq 999 ≤ geoMean ((rev.take (j + 1)).map Candle.volume) then
        geoMean ((rev.take (j + 1)).map Candle.volume) < nnq picked.volume
      else geoMean ((rev.take (j + 1)).map Candle.volume) * nnq 7 < nnq picked.volume)) :
    analyzeWorking now rev = some (.invalid .volume_not_elevated) := by
  rw [analyzeWorking, hj]
  simp only [analyzeFound, if_neg hfloor, hpick]
  by_cases h999 : nnq 999 ≤ geoMean ((rev.take (j + 1)).map Candle.volume)
  · rw [if_pos h999] at hcmp ⊢
    rw [if_neg hcmp]
  · rw [if_neg h999] at hcmp ⊢
    rw [if_neg hcmp]

/-- Claim C1: the `last_candle_volume` field does not equal the target
candle's volume.  At `now = 1000` on the series
`[(ts 300, vol 20000), (ts 600, vol 1000)]` both candles are closed, so
the target (first closed candle scanning from the most recent) is the
candle at timestamp 600 with volume 1000; the returned result is
nevertheless valid with `last_candle_volume = 20000` — the volume of
`df.iloc[i]`, which on the reversed frame is the oldest candle. -/
theorem last_candle_volume_not_target_volume :
    analyze_candles 1000 [⟨300, 0, 0, 0, 0, 20000⟩, ⟨600, 0, 0, 0, 0, 1000⟩] =
      some (.valid 300 20000 (geoMean [(1000 : ℚ≥0)]))
    ∧ targetCandle 1000 [⟨300, 0, 0, 0, 0, 20000⟩, ⟨600, 0, 0, 0, 0, 1000⟩] =
      some ⟨600, 0, 0, 0, 0, 1000⟩
    ∧ (20000 : ℚ≥0) ≠ 1000 := by
  refine ⟨?_, by decide, by decide⟩
  have hp : prepare_data 1000 [⟨300, 0, 0, 0, 0, 20000⟩, ⟨600, 0, 0, 0, 0, 1000⟩] =
      some [⟨300, 0, 0, 0, 0, 20000⟩, ⟨600, 0, 0, 0, 0, 1000⟩] := by decide
  rw [analyze_candles_eq_working hp]
  have hj : (([⟨300, 0, 0, 0, 0, 20000⟩, ⟨600, 0, 0, 0, 0, 1000⟩] :
      List Candle).reverse).findIdx? (is_candle_closed 1000) = some 0 := by decide
  have hpick : (([⟨300, 0, 0, 0, 0, 20000⟩, ⟨600, 0, 0, 0, 0, 1000⟩] :
      List Candle).reverse).get?
      (([⟨300, 0, 0, 0, 0, 20000⟩, ⟨600, 0, 0, 0, 0, 1000⟩] :
        List Candle).reverse.length - 1 - 0) = some ⟨300, 0, 0, 0, 0, 20000⟩ := by decide
  have hpv : ((([⟨300, 0, 0, 0, 0, 20000⟩, ⟨600, 0, 0, 0, 0, 1000⟩] :
      List Candle).reverse).take (0 + 1)).map Candle.volume = [(1000 : ℚ≥0)] := by decide
  have hfloor : ¬ geoMean (((([⟨300, 0, 0, 0, 0, 20000⟩, ⟨600, 0, 0, 0, 0, 1000⟩] :
      List Candle).reverse).take (0 + 1)).map Candle.volume) < nnq 10 := by
    rw [hpv, geoMean_lt_nnq 10 (by simp)]
    norm_num
  have h999 : nnq 999 ≤ geoMean [(1000 : ℚ≥0)] := by
    rw [nnq_le_geoMean 999 (by simp)]
    norm_num
  have hcmp : if nnq 999 ≤ geoMean (((([⟨300, 0, 0, 0, 0, 20000⟩, ⟨600, 0, 0, 0, 0, 1000⟩] :
      List Candle).reverse).take (0 + 1)).map Candle.volume) then
      geoMean (((([⟨300, 0, 0, 0, 0, 20000⟩, ⟨600, 0, 0, 0, 0, 1000⟩] :
        List Candle).reverse).take (0 + 1)).map Candle.volume) <
        nnq (Candle.volume ⟨300, 0, 0, 0, 0, 20000⟩)
    else geoMean (((([⟨300, 0, 0, 0, 0, 20000⟩, ⟨600, 0, 0, 0, 0, 1000⟩] :
        List Candle).reverse).take (0 + 1)).map Candle.volume) * nnq 7 <
        nnq (Candle.volume ⟨300, 0, 0, 0, 0, 20000⟩) := by
    rw [hpv, if_pos h999, geoMean_lt_nnq 20000 (by simp)]
    norm_num
  have hres := analyzeWorking_valid hj hfloor hpick hcmp
  rw [hres, hpv]

/-- Claim C2: the `average_previous_volume` field is the geometric mean of
the target candle and the candles *newer* than it (positions `0..j` of
the reversed frame), not of the target and the older candles.  At
`now = 1000` on `[(ts 300, vol 4000), (ts 600, vol 1000)]` the result
is valid with average `geoMean [1000] = 1000`, while the
specification's inclusive range from the target down to the oldest
entry is `[1000, 4000]`, whose geometric mean is `2000 ≠ 1000`. -/
theorem average_previous_volume_wrong_range :
    (analyze_candles 1000 [⟨300, 0, 0, 0, 0, 4000⟩, ⟨600, 0, 0, 0, 0, 1000⟩]).bind
      PatternResult.avgVol = some (geoMean [(1000 : ℚ≥0)])
    ∧ specRangeVolumes 1000 [⟨300, 0, 0, 0, 0, 4000⟩, ⟨600, 0, 0, 0, 0, 1000⟩] =
      some [(1000 : ℚ≥0), 4000]
    ∧ geoMean [(1000 : ℚ≥0)] = nnq 1000
    ∧ geoMean [(1000 : ℚ≥0), 4000] = nnq 2000
    ∧ nnq 1000 ≠ nnq 2000 := by
  have hone : geoMean [(1000 : ℚ≥0)] = nnq 1000 := by
    apply geoMean_eq_of_pow (by simp)
    simp
  have htwo : geoMean [(1000 : ℚ≥0), 4000] = nnq 2000 := by
    apply geoMean_eq_of_pow (by simp)
    norm_num
  refine ⟨?_, by decide, hone, htwo, ?_⟩
  · have hp : prepare_data 1000 [⟨300, 0, 0, 0, 0, 4000⟩, ⟨600, 0, 0, 0, 0, 1000⟩] =
        some [⟨300, 0, 0, 0, 0, 4000⟩, ⟨600, 0, 0, 0, 0, 1000⟩] := by decide
    have hj : (([⟨300, 0, 0, 0, 0, 4000⟩, ⟨600, 0, 0, 0, 0, 1000⟩] :
        List Candle).reverse).findIdx? (is_candle_closed 1000) = some 0 := by decide
    have hpick : (([⟨300, 0, 0, 0, 0, 4000⟩, ⟨600, 0, 0, 0, 0, 1000⟩] :
        List Candle).reverse).get?
        (([⟨300, 0, 0, 0, 0, 4000⟩, ⟨600, 0, 0, 0, 0, 1000⟩] :
          List Candle).reverse.length - 1 - 0) = some ⟨300, 0, 0, 0, 0, 4000⟩ := by decide
    have hpv : ((([⟨300, 0, 0, 0, 0, 4000⟩, ⟨600, 0, 0, 0, 0, 1000⟩] :
        List Candle).reverse).take (0 + 1)).map Candle.volume = [(1000 : ℚ≥0)] := by decide
    have hfloor : ¬ geoMean (((([⟨300, 0, 0, 0, 0, 4000⟩, ⟨600, 0, 0, 0, 0, 1000⟩] :
        List Candle).reverse).take (0 + 1)).map Candle.volume) < nnq 10 := by
      rw [hpv, geoMean_lt_nnq 10 (by simp)]
      norm_num
    have h999 : nnq 999 ≤ geoMean [(1000 : ℚ≥0)] := by
      rw [nnq_le_geoMean 999 (by simp)]
      norm_num
    have hcmp : if nnq 999 ≤ geoMean (((([⟨300, 0, 0, 0, 0, 4000⟩, ⟨600, 0, 0, 0, 0, 1000⟩] :
        List Candle).reverse).take (0 + 1)).map Candle.volume) then
        geoMean (((([⟨300, 0, 0, 0, 0, 4000⟩, ⟨600, 0, 0, 0, 0, 1000⟩] :
          List Candle).reverse).take (0 + 1)).map Candle.volume) <
          nnq (Candle.volume ⟨300, 0, 0, 0, 0, 4000⟩)
      else geoMean (((([⟨300, 0, 0, 0, 0, 4000⟩, ⟨600, 0, 0, 0, 0, 1000⟩] :
          List Candle).reverse).take (0 + 1)).map Candle.volume) * nnq 7 <
          nnq (Candle.volume ⟨300, 0, 0, 0, 0, 4000⟩) := by
      rw [hpv, if_pos h999, geoMean_lt_nnq 4000 (by simp)]
      norm_num
    have hres := analyzeWorking_valid hj hfloor hpick hcmp
    rw [analyze_candles_eq_working hp, hres, hpv]
    rfl
  · intro h
    exact absurd (nnq_inj.mp h) (by decide)

/-- Claim C3: once a target row has been found and the computed geometric
mean is at least the floor of 10, the result of `analyze_candles` is
valid precisely when the code's `last_candle_volume` (the volume of
`df.iloc[i]`, here `picked`) exceeds the effective average — the
computed average when it is at least 999, and seven times it otherwise;
on valid the reported average is the uncorrected mean and on invalid
the reason is `volume_not_elevated`. -/
theorem valid_iff_exceeds_effective_average
    (now : ℚ) (ohlcv working : List Candle) (j : ℕ) (picked : Candle)
    (hw : prepare_data now ohlcv = some working)
    (hj : working.reverse.findIdx? (is_candle_closed now) = some j)
    (hpick : working.reverse.get? (working.reverse.length - 1 - j) = some picked)
    (hfloor : ¬ geoMean ((working.reverse.take (j + 1)).map Candle.volume) < nnq 10) :
    ((if nnq 999 ≤ geoMean ((working.reverse.take (j + 1)).map Candle.volume) then
        geoMean ((working.reverse.take (j + 1)).map Candle.volume)
      else geoMean ((working.reverse.take (j + 1)).map Candle.volume) * nnq 7) <
        nnq picked.volume →
      analyze_candles now ohlcv =
        some (.valid picked.timestamp picked.volume
          (geoMean ((working.reverse.take (j + 1)).map Candle.volume))))
    ∧ (¬ ((if nnq 999 ≤ geoMean ((working.reverse.take (j + 1)).map Candle.volume) then
        geoMean ((working.reverse.take (j + 1)).map Candle.volume)
      else geoMean ((working.reverse.take (j + 1)).map Candle.volume) * nnq 7) <
        nnq picked.volume) →
      analyze_candles now ohlcv = some (.invalid .volume_not_elevated)) := by
  constructor
  · intro heff
    rw [analyze_candles_eq_working hw]
    apply analyzeWorking_valid hj hfloor hpick
    by_cases h999 : nnq 999 ≤ geoMean ((working.reverse.take (j + 1)).map Candle.volume)
    · rw [if_pos h999] at heff ⊢
      exact heff
    · rw [if_neg h999] at heff ⊢
      exact heff
  · intro heff
    rw [analyze_candles_eq_working hw]
    apply analyzeWorking_not_elevated hj hfloor hpick
    by_cases h999 : nnq 999 ≤ geoMean ((working.reverse.take (j + 1)).map Candle.volume)
    · rw [if_pos h999] at heff ⊢
      exact heff
    · rw [if_neg h999] at heff ⊢
      exact heff

/-- Witness for C3 at `now = 1000` on
`[(ts 300, vol 9000), (ts 600, vol 1000)]`: the average is
`geoMean [1000] ≥ 999`, so the effective average is `1000 < 9000` and
the result is valid. -/
theorem valid_iff_exceeds_effective_average_witness :
    prepare_data 1000 [⟨300, 0, 0, 0, 0, 9000⟩, ⟨600, 0, 0, 0, 0, 1000⟩] =
      some [⟨300, 0, 0, 0, 0, 9000⟩, ⟨600, 0, 0, 0, 0, 1000⟩]
    ∧ (([⟨300, 0, 0, 0, 0, 9000⟩, ⟨600, 0, 0, 0, 0, 1000⟩] :
        List Candle).reverse).findIdx? (is_candle_closed 1000) = some 0
    ∧ analyze_candles 1000 [⟨300, 0, 0, 0, 0, 9000⟩, ⟨600, 0, 0, 0, 0, 1000⟩] =
      some (.valid 300 9000 (geoMean (((([⟨300, 0, 0, 0, 0, 9000⟩,
        ⟨600, 0, 0, 0, 0, 1000⟩] : List Candle).reverse).take (0 + 1)).map
          Candle.volume))) := by
  have hp : prepare_data 1000 [⟨300, 0, 0, 0, 0, 9000⟩, ⟨600, 0, 0, 0, 0, 1000⟩] =
      some [⟨300, 0, 0, 0, 0, 9000⟩, ⟨600, 0, 0, 0, 0, 1000⟩] := by decide
  have hj : (([⟨300, 0, 0, 0, 0, 9000⟩, ⟨600, 0, 0, 0, 0, 1000⟩] :
      List Candle).reverse).findIdx? (is_candle_closed 1000) = some 0 := by decide
  have hpick : (([⟨300, 0, 0, 0, 0, 9000⟩, ⟨600, 0, 0, 0, 0, 1000⟩] :
      List Candle).reverse).get?
      (([⟨300, 0, 0, 0, 0, 9000⟩, ⟨600, 0, 0, 0, 0, 1000⟩] :
        List Candle).reverse.length - 1 - 0) = some ⟨300, 0, 0, 0, 0, 9000⟩ := by decide
  have hpv : ((([⟨300, 0, 0, 0, 0, 9000⟩, ⟨600, 0, 0, 0, 0, 1000⟩] :
      List Candle).reverse).take (0 + 1)).map Candle.volume = [(1000 : ℚ≥0)] := by decide
  have hfloor : ¬ geoMean (((([⟨300, 0, 0, 0, 0, 9000⟩, ⟨600, 0, 0, 0, 0, 1000⟩] :
      List Candle).reverse).take (0 + 1)).map Candle.volume) < nnq 10 := by
    rw [hpv, geoMean_lt_nnq 10 (by simp)]
    norm_num
  have h999 : nnq 999 ≤ geoMean (((([⟨300, 0, 0, 0, 0, 9000⟩, ⟨600, 0, 0, 0, 0, 1000⟩] :
      List Candle).reverse).take (0 + 1)).map Candle.volume) := by
    rw [hpv, nnq_le_geoMean 999 (by simp)]
    norm_num
  have heff : (if nnq 999 ≤ geoMean (((([⟨300, 0, 0, 0, 0, 9000⟩,
      ⟨600, 0, 0, 0, 0, 1000⟩] : List Candle).reverse).take (0 + 1)).map Candle.volume) then
      geoMean (((([⟨300, 0, 0, 0, 0, 9000⟩, ⟨600, 0, 0, 0, 0, 1000⟩] :
        List Candle).reverse).take (0 + 1)).map Candle.volume)
    else geoMean (((([⟨300, 0, 0, 0, 0, 9000⟩, ⟨600, 0, 0, 0, 0, 1000⟩] :
        List Candle).reverse).take (0 + 1)).map Candle.volume) * nnq 7) <
      nnq (Candle.volume ⟨300, 0, 0, 0, 0, 9000⟩) := by
    rw [if_pos h999, hpv, geoMean_lt_nnq 9000 (by simp)]
    norm_num
  exact ⟨hp, hj,
    (valid_iff_exceeds_effective_average 1000 _ _ 0 _ hp hj hpick hfloor).1 heff⟩

lemma findIdx?_congr {α : Type} {p q : α → Bool} :
    ∀ (l : List α) (i : ℕ), (∀ x ∈ l, p x = q x) → l.findIdx? p i = l.findIdx? q i
  | [], _, _ => by simp
  | a :: as, i, h => by
      rw [List.findIdx?_cons, List.findIdx?_cons, h a (List.mem_cons_self a as),
        findIdx?_congr as (i + 1) (fun x hx => h x (List.mem_cons_of_mem a hx))]

lemma prepare_data_subset {now : ℚ} {l w : List Candle}
    (h : prepare_data now l = some w) : w ⊆ l := by
  unfold prepare_data at h
  cases hl : l.getLast? with
  | none => rw [hl] at h; exact absurd h (by simp)
  | some c =>
      rw [hl] at h
      dsimp only at h
      by_cases hc : is_candle_closed now c = true
      · rw [if_pos hc] at h
        cases h
        exact fun x hx => hx
      · rw [if_neg hc] at h
        cases h
        exact List.dropLast_subset l

lemma prepare_data_congr {now₁ now₂ : ℚ} {l : List Candle}
    (h : ∀ c ∈ l, is_candle_closed now₁ c = is_candle_closed now₂ c) :
    prepare_data now₁ l = prepare_data now₂ l := by
  unfold prepare_data
  cases hl : l.getLast? with
  | none => rfl
  | some c =>
      have hc : c ∈ l := by
        obtain ⟨hne, rfl⟩ := List.mem_getLast?_eq_getLast (show c ∈ l.getLast? from hl)
        exact List.getLast_mem hne
      dsimp only
      rw [h c hc]

/-- Claim C4, amended: `analyze_candles` is a deterministic function of the
series and of how the wall clock classifies each candle as closed: two
invocations agree whenever every candle of the series has the same
closed-status at the two call times.  (The result does depend on the
wall-clock time itself; see the accompanying counterexample.) -/
theorem analyze_candles_clock_congruence (now₁ now₂ : ℚ) (ohlcv : List Candle)
    (h : ∀ c ∈ ohlcv, is_candle_closed now₁ c = is_candle_closed now₂ c) :
    analyze_candles now₁ ohlcv = analyze_candles now₂ ohlcv := by
  have hprep := prepare_data_congr h
  unfold analyze_candles
  rw [← hprep]
  cases hp : prepare_data now₁ ohlcv with
  | none => rfl
  | some w =>
      show analyzeWorking now₁ w.reverse = analyzeWorking now₂ w.reverse
      unfold analyzeWorking
      rw [findIdx?_congr w.reverse 0
        (fun c hc => h c (prepare_data_subset hp (List.mem_reverse.mp hc)))]

/-- Counterexample for C4 as stated: on the one-candle series
`[(ts 300, vol 50)]` a call at wall-clock time 200 (candle not yet
closed, working series empty) and a call at time 400 (candle closed,
volume test fails) return different results, so `analyze_candles` does
depend on the wall-clock time of the call. -/
theorem analyze_candles_depends_on_clock :
    analyze_candles 200 [⟨300, 0, 0, 0, 0, 50⟩] = some (.invalid .insufficient_candles)
    ∧ analyze_candles 400 [⟨300, 0, 0, 0, 0, 50⟩] = some (.invalid .volume_not_elevated)
    ∧ analyze_candles 200 [⟨300, 0, 0, 0, 0, 50⟩] ≠
        analyze_candles 400 [⟨300, 0, 0, 0, 0, 50⟩] := by
  have h1 : analyze_candles 200 [⟨300, 0, 0, 0, 0, 50⟩] =
      some (.invalid .insufficient_candles) := by
    have hp : prepare_data 200 [⟨300, 0, 0, 0, 0, 50⟩] = some [] := by decide
    rw [analyze_candles_eq_working hp]
    exact analyzeWorking_insufficient (by decide)
  have h2 : analyze_candles 400 [⟨300, 0, 0, 0, 0, 50⟩] =
      some (.invalid .volume_not_elevated) := by
    have hp : prepare_data 400 [⟨300, 0, 0, 0, 0, 50⟩] =
        some [⟨300, 0, 0, 0, 0, 50⟩] := by decide
    rw [analyze_candles_eq_working hp]
    have hj : (([⟨300, 0, 0, 0, 0, 50⟩] : List Candle).reverse).findIdx?
        (is_candle_closed 400) = some 0 := by decide
    have hpick : (([⟨300, 0, 0, 0, 0, 50⟩] : List Candle).reverse).get?
        (([⟨300, 0, 0, 0, 0, 50⟩] : List Candle).reverse.length - 1 - 0) =
        some ⟨300, 0, 0, 0, 0, 50⟩ := by decide
    have hpv : ((([⟨300, 0, 0, 0, 0, 50⟩] : List Candle).reverse).take (0 + 1)).map
        Candle.volume = [(50 : ℚ≥0)] := by decide
    have hfloor : ¬ geoMean ((([⟨300, 0, 0, 0, 0, 50⟩] :
        List Candle).reverse.take (0 + 1)).map Candle.volume) < nnq 10 := by
      rw [hpv, geoMean_lt_nnq 10 (by simp)]
      norm_num
    have h999 : ¬ nnq 999 ≤ geoMean ((([⟨300, 0, 0, 0, 0, 50⟩] :
        List Candle).reverse.take (0 + 1)).map Candle.volume) := by
      rw [hpv, nnq_le_geoMean 999 (by simp)]
      norm_num
    have hcmp : ¬ (if nnq 999 ≤ geoMean ((([⟨300, 0, 0, 0, 0, 50⟩] :
        List Candle).reverse.take (0 + 1)).map Candle.volume) then
        geoMean ((([⟨300, 0, 0, 0, 0, 50⟩] :
          List Candle).reverse.take (0 + 1)).map Candle.volume) <
          nnq (Candle.volume ⟨300, 0, 0, 0, 0, 50⟩)
      else geoMean ((([⟨300, 0, 0, 0, 0, 50⟩] :
          List Candle).reverse.take (0 + 1)).map Candle.volume) * nnq 7 <
          nnq (Candle.volume ⟨300, 0, 0, 0, 0, 50⟩)) := by
      rw [if_neg h999, hpv, geoMean_mul_nnq_lt 7 50 (by simp)]
      norm_num
    exact analyzeWorking_not_elevated hj hfloor hpick hcmp
  refine ⟨h1, h2, ?_⟩
  rw [h1, h2]
  simp

/-- Witness for the amended C4 at call times 700 and 900 on a series
whose candles are all closed at both times. -/
theorem analyze_candles_clock_congruence_witness :
    (∀ c ∈ [(⟨300, 0, 0, 0, 0, 50⟩ : Candle), ⟨600, 0, 0, 0, 0, 80⟩],
      is_candle_closed 700 c = is_candle_closed 900 c)
    ∧ analyze_candles 700 [⟨300, 0, 0, 0, 0, 50⟩, ⟨600, 0, 0, 0, 0, 80⟩] =
        analyze_candles 900 [⟨300, 0, 0, 0, 0, 50⟩, ⟨600, 0, 0, 0, 0, 80⟩] :=
  ⟨by decide, analyze_candles_clock_congruence 700 900 _ (by decide)⟩

/-- Claim C5, amended: every *non-empty* series with no closed candle yields
an invalid result with reason `insufficient_candles`, whatever the
volumes.  (The empty series instead raises `IndexError` inside
`prepare_data`; see the accompanying counterexample.) -/
theorem no_closed_candle_insufficient (now : ℚ) (ohlcv : List Candle)
    (hne : ohlcv ≠ [])
    (hall : ∀ c ∈ ohlcv, is_candle_closed now c = false) :
    analyze_candles now ohlcv = some (.invalid .insufficient_candles) := by
  have hcl : is_candle_closed now (ohlcv.getLast hne) = false :=
    hall _ (List.getLast_mem hne)
  have hp : prepare_data now ohlcv = some ohlcv.dropLast := by
    unfold prepare_data
    rw [List.getLast?_eq_getLast ohlcv hne]
    dsimp only
    rw [hcl]
    simp
  rw [analyze_candles_eq_working hp]
  apply analyzeWorking_insufficient
  rw [List.findIdx?_eq_none_iff]
  intro c hc
  exact hall c (List.dropLast_subset ohlcv (List.mem_reverse.mp hc))

/-- Counterexample for C5 as stated: the empty series contains zero
closed candles, yet `analyze_candles` does not return the
`insufficient_candles` result — `pd.DataFrame([]).iloc[-1]` raises
`IndexError` (modelled as `none`). -/
theorem empty_series_raises :
    analyze_candles 0 [] = none
    ∧ (none : Option PatternResult) ≠ some (.invalid .insufficient_candles) :=
  ⟨rfl, by simp⟩

/-- Witness for the amended C5: a single unaligned candle (timestamp
100) is never closed, and the result is `insufficient_candles`. -/
theorem no_closed_candle_insufficient_witness :
    ([(⟨100, 0, 0, 0, 0, 50⟩ : Candle)] ≠ [])
    ∧ (∀ c ∈ [(⟨100, 0, 0, 0, 0, 50⟩ : Candle)], is_candle_closed 1000 c = false)
    ∧ analyze_candles 1000 [⟨100, 0, 0, 0, 0, 50⟩] =
        some (.invalid .insufficient_candles) :=
  ⟨by decide, by decide, no_closed_candle_insufficient 1000 _ (by decide) (by decide)⟩

lemma is_candle_closed_iff (now : ℚ) (c : Candle) :
    is_candle_closed now c = true ↔ c.timestamp % 300 = 0 ∧ (c.timestamp : ℚ) < now := by
  simp [is_candle_closed]

/-- Claim C6, amended: `prepare_data` keeps all entries except possibly the
last unchanged and in order, and drops the last entry exactly when that
entry is not closed, i.e. when its timestamp is not a multiple of 300
*or* does not lie strictly before the current time.  (An aligned
timestamp alone does not guarantee the entry is kept; see the
accompanying counterexample.) -/
theorem prepare_data_drops_iff (now : ℚ) (ohlcv : List Candle) (c : Candle)
    (h : ohlcv.getLast? = some c) :
    (c.timestamp % 300 = 0 ∧ (c.timestamp : ℚ) < now →
      prepare_data now ohlcv = some ohlcv)
    ∧ (¬ (c.timestamp % 300 = 0 ∧ (c.timestamp : ℚ) < now) →
      prepare_data now ohlcv = some ohlcv.dropLast) := by
  constructor
  · intro hc
    unfold prepare_data
    rw [h]
    dsimp only
    rw [if_pos ((is_candle_closed_iff now c).mpr hc)]
  · intro hc
    unfold prepare_data
    rw [h]
    dsimp only
    rw [if_neg (fun hb => hc ((is_candle_closed_iff now c).mp hb))]

/-- Counterexample for C6 as stated: at wall-clock time 100, the last
(and only) entry has timestamp 300, a multiple of 300, yet it is
dropped, because it does not lie strictly before the current time. -/
theorem aligned_future_candle_dropped :
    (300 : ℤ) % 300 = 0
    ∧ prepare_data 100 [⟨300, 0, 0, 0, 0, 50⟩] = some []
    ∧ some ([] : List Candle) ≠ some [(⟨300, 0, 0, 0, 0, 50⟩ : Candle)] := by decide

/-- Witness for the amended C6: at time 1000 the aligned past candle at
timestamp 300 is kept. -/
theorem prepare_data_drops_iff_witness :
    ([(⟨300, 0, 0, 0, 0, 50⟩ : Candle)] : List Candle).getLast? =
      some ⟨300, 0, 0, 0, 0, 50⟩
    ∧ prepare_data 1000 [⟨300, 0, 0, 0, 0, 50⟩] = some [⟨300, 0, 0, 0, 0, 50⟩] :=
  ⟨by decide, (prepare_data_drops_iff 1000 [⟨300, 0, 0, 0, 0, 50⟩]
    ⟨300, 0, 0, 0, 0, 50⟩ (by decide)).1 (by decide)⟩

lemma passes_metadata_iff (r : DexResponse) :
    passes_metadata r = true ↔
      0 < r.pairs.length ∧ ∃ p, r.pairMain = some p ∧ ¬ p.liquidityUsd > p.fdv * 0.8 := by
  unfold passes_metadata
  by_cases hlen : r.pairs.length > 0
  · rw [if_pos hlen]
    cases hm : r.pairMain with
    | none => simp [hlen, hm]
    | some p =>
        dsimp only
        by_cases hg : p.liquidityUsd > p.fdv * 0.8
        · rw [if_pos hg]
          simp [hlen, hm, hg]
        · rw [if_neg hg]
          simp [hlen, hm, hg]
          exact le_of_not_lt hg
  · rw [if_neg hlen]
    simp [hlen]

lemma metadata_queue_mem {fetch : String → Option DexResponse} {addrs : List String}
    {a : String} {r : DexResponse} :
    (a, r) ∈ metadata_queue fetch addrs ↔
      a ∈ addrs ∧ fetch a = some r ∧ passes_metadata r = true := by
  unfold metadata_queue
  rw [List.mem_filterMap]
  constructor
  · rintro ⟨a2, ha2, hx⟩
    cases hf : fetch a2 with
    | none => rw [hf] at hx; simp at hx
    | some r2 =>
        rw [hf] at hx
        simp only [Option.some_bind] at hx
        by_cases hp : passes_metadata r2 = true
        · rw [if_pos hp] at hx
          obtain ⟨rfl, rfl⟩ : a2 = a ∧ r2 = r := by
            simpa [Prod.ext_iff] using hx
          exact ⟨ha2, hf, hp⟩
        · rw [if_neg hp] at hx
          simp at hx
  · rintro ⟨ha, hf, hp⟩
    refine ⟨a, ha, ?_⟩
    rw [hf]
    simp only [Option.some_bind]
    rw [if_pos hp]

/-- Claim C7, amended: an address whose metadata record `dex_data['pair']`
has `liquidity > fdv * 0.8` is never enqueued for the candle pass; every
queued response's `pair` record satisfies the guard; and the constructed
PairSnapshot satisfies `liquidity ≤ fdv * 0.8` whenever the snapshot's
source record `pairs[0]` agrees with the guard-checked record `pair` on
liquidity and fdv.  (The guard reads `dex_data['pair']` while the
snapshot is built from `dex_data['pairs'][0]`; when the two records
disagree the snapshot can violate the bound — see the accompanying
counterexample.) -/
theorem liquidity_guard (fetch : String → Option DexResponse) (addrs : List String) :
    (∀ a r, (a, r) ∈ metadata_queue fetch addrs →
      fetch a = some r ∧ ∃ p, r.pairMain = some p ∧ ¬ p.liquidityUsd > p.fdv * 0.8)
    ∧ (∀ a r p, fetch a = some r → r.pairMain = some p →
      p.liquidityUsd > p.fdv * 0.8 → ∀ r2, (a, r2) ∉ metadata_queue fetch addrs)
    ∧ (∀ a r p p0, (a, r) ∈ metadata_queue fetch addrs → r.pairMain = some p →
      r.pairs.head? = some p0 → p0.liquidityUsd = p.liquidityUsd → p0.fdv = p.fdv →
      ¬ (pair_snapshot p0).liquidity > (pair_snapshot p0).fdv * 0.8) := by
  refine ⟨?_, ?_, ?_⟩
  · intro a r hmem
    obtain ⟨-, hf, hp⟩ := metadata_queue_mem.mp hmem
    obtain ⟨-, p, hm, hg⟩ := (passes_metadata_iff r).mp hp
    exact ⟨hf, p, hm, hg⟩
  · intro a r p hf hm hg r2 hmem
    obtain ⟨-, hf2, hp2⟩ := metadata_queue_mem.mp hmem
    have hr : r2 = r := by
      have := hf2.symm.trans hf
      exact Option.some.inj this
    subst hr
    obtain ⟨-, p2, hm2, hg2⟩ := (passes_metadata_iff r2).mp hp2
    have hp2p : p2 = p := Option.some.inj (hm2.symm.trans hm)
    subst hp2p
    exact hg2 hg
  · intro a r p p0 hmem hm hhead hliq hfdv
    obtain ⟨-, hf, hp⟩ := metadata_queue_mem.mp hmem
    obtain ⟨-, p2, hm2, hg2⟩ := (passes_metadata_iff r).mp hp
    have hp2p : p2 = p := Option.some.inj (hm2.symm.trans hm)
    subst hp2p
    show ¬ (pair_snapshot p0).fdv * 0.8 < (pair_snapshot p0).liquidity
    unfold pair_snapshot
    dsimp only
    rw [hliq, hfdv]
    exact hg2

/-- Counterexample for C7 as stated: a response whose `pair` record has
liquidity 100 / fdv 1000 passes the guard, while its `pairs[0]` record
has liquidity 900 / fdv 1000; the constructed PairSnapshot then
violates `liquidity ≤ 0.8 × fdv` (900 > 800) although it reached the
candle pass. -/
theorem snapshot_guard_violated :
    candle_pass_snapshots
      (fun _ => some ⟨[⟨"pool", "S", "N", "CA", 1, 900, 1, "u", 1000⟩],
        some ⟨"pool", "S", "N", "CA", 1, 100, 1, "u", 1000⟩⟩) ["addr"] =
      [pair_snapshot ⟨"pool", "S", "N", "CA", 1, 900, 1, "u", 1000⟩]
    ∧ (pair_snapshot ⟨"pool", "S", "N", "CA", 1, 900, 1, "u", 1000⟩).fdv * 0.8 <
      (pair_snapshot ⟨"pool", "S", "N", "CA", 1, 900, 1, "u", 1000⟩).liquidity := by
  constructor
  · have hq : passes_metadata ⟨[⟨"pool", "S", "N", "CA", 1, 900, 1, "u", 1000⟩],
        some ⟨"pool", "S", "N", "CA", 1, 100, 1, "u", 1000⟩⟩ = true := by
      unfold passes_metadata
      norm_num
    simp [candle_pass_snapshots, metadata_queue, hq]
  · unfold pair_snapshot
    norm_num

/-- Witness for the amended C7: with a consistent response (the same
record under `pair` and `pairs[0]`, liquidity 100 / fdv 1000) the
address is queued and its snapshot satisfies the guard bound. -/
theorem liquidity_guard_witness :
    ("addr", (⟨[⟨"pool", "S", "N", "CA", 1, 100, 1, "u", 1000⟩],
        some ⟨"pool", "S", "N", "CA", 1, 100, 1, "u", 1000⟩⟩ : DexResponse)) ∈
      metadata_queue (fun _ => some ⟨[⟨"pool", "S", "N", "CA", 1, 100, 1, "u", 1000⟩],
        some ⟨"pool", "S", "N", "CA", 1, 100, 1, "u", 1000⟩⟩) ["addr"]
    ∧ ¬ (pair_snapshot ⟨"pool", "S", "N", "CA", 1, 100, 1, "u", 1000⟩).liquidity >
      (pair_snapshot ⟨"pool", "S", "N", "CA", 1, 100, 1, "u", 1000⟩).fdv * 0.8 := by
  have hq : passes_metadata ⟨[⟨"pool", "S", "N", "CA", 1, 100, 1, "u", 1000⟩],
      some ⟨"pool", "S", "N", "CA", 1, 100, 1, "u", 1000⟩⟩ = true := by
    unfold passes_metadata
    norm_num
  have hmem : ("addr", (⟨[⟨"pool", "S", "N", "CA", 1, 100, 1, "u", 1000⟩],
      some ⟨"pool", "S", "N", "CA", 1, 100, 1, "u", 1000⟩⟩ : DexResponse)) ∈
      metadata_queue (fun _ => some ⟨[⟨"pool", "S", "N", "CA", 1, 100, 1, "u", 1000⟩],
        some ⟨"pool", "S", "N", "CA", 1, 100, 1, "u", 1000⟩⟩) ["addr"] := by
    apply metadata_queue_mem.mpr
    exact ⟨by simp, rfl, hq⟩
  refine ⟨hmem, ?_⟩
  exact (liquidity_guard (fun _ => some ⟨[⟨"pool", "S", "N", "CA", 1, 100, 1, "u", 1000⟩],
      some ⟨"pool", "S", "N", "CA", 1, 100, 1, "u", 1000⟩⟩) ["addr"]).2.2
    "addr" _ _ _ hmem rfl rfl rfl rfl

lemma pruneStamps_le (now : ℚ) :
    ∀ (ts : List ℚ), ts.Sorted (· ≤ ·) → ∀ t ∈ pruneStamps now ts, now - t ≤ 60
  | [], _, t, ht => by simp [pruneStamps] at ht
  | t0 :: rest, hsort, t, ht => by
      unfold pruneStamps at ht
      by_cases hdrop : 60 < now - t0
      · rw [if_pos hdrop] at ht
        exact pruneStamps_le now rest hsort.of_cons t ht
      · rw [if_neg hdrop] at ht
        rcases List.mem_cons.mp ht with rfl | hmem
        · exact le_of_not_lt hdrop
        · have h1 : t0 ≤ t := (List.sorted_cons.mp hsort).1 t hmem
          have h2 : now - t0 ≤ 60 := le_of_not_lt hdrop
          linarith

/-- Claim C8, amended: `wait_if_needed` prunes the prefix of timestamps more
than 60 seconds old (on a time-sorted deque every remaining timestamp
is at most 60 seconds old), appends the invocation time, and whenever
at least `calls_per_minute` timestamps remain after pruning it does not
return before the oldest remaining timestamp is at least 60 seconds
old.  (This per-call guarantee does not bound the number of recorded
calls in every trailing 60-second window — see the accompanying
counterexample.) -/
theorem wait_if_needed_spec (cpm : ℕ) (ts : List ℚ) (now : ℚ)
    (hsort : ts.Sorted (· ≤ ·)) :
    (wait_if_needed cpm ts now).1 = pruneStamps now ts ++ [now]
    ∧ (∀ t ∈ pruneStamps now ts, now - t ≤ 60)
    ∧ (∀ t0, (pruneStamps now ts).head? = some t0 →
      cpm ≤ (pruneStamps now ts).length →
      t0 + 60 ≤ (wait_if_needed cpm ts now).2 ∧ now ≤ (wait_if_needed cpm ts now).2) := by
  refine ⟨rfl, pruneStamps_le now ts hsort, ?_⟩
  intro t0 ht0 hlen
  simp only [wait_if_needed]
  rw [if_pos hlen, ht0]
  dsimp only
  by_cases hw : 0 < 60 - (now - t0)
  · rw [if_pos hw]
    constructor <;> [linarith; linarith]
  · rw [if_neg hw]
    have := not_lt.mp hw
    constructor <;> [linarith; linarith]

/-- Witness for the amended C8: a limiter with `calls_per_minute = 2`
on the sorted deque `[0, 30]` invoked at time 61. -/
theorem wait_if_needed_spec_witness :
    ([(0 : ℚ), 30].Sorted (· ≤ ·))
    ∧ (wait_if_needed 2 [(0 : ℚ), 30] 61).1 = pruneStamps 61 [(0 : ℚ), 30] ++ [61] :=
  ⟨by decide, (wait_if_needed_spec 2 [(0 : ℚ), 30] 61 (by decide)).1⟩

/-- Counterexample for C8 as stated: with `calls_per_minute = 1` and
calls invoked at times 0, 60 and 60 (each invocation at or after the
previous call's completion, as the stated completion times show), the
recorded deque becomes `[0, 60, 60]` and the trailing 60-second window
ending at time 60 contains two recorded calls, exceeding the limit of
one: the second and third calls compute `wait_time = 0` and do not
block. -/
theorem rate_limit_window_exceeded :
    wait_if_needed 1 [] 0 = ([0], 0)
    ∧ wait_if_needed 1 [0] 60 = ([0, 60], 60)
    ∧ wait_if_needed 1 [0, 60] 60 = ([0, 60, 60], 60)
    ∧ runLimiter 1 [] [0, 60, 60] = [0, 60, 60]
    ∧ countWindow 60 [0, 60, 60] = 2
    ∧ 1 < 2 := by
  have h1 : wait_if_needed 1 [] 0 = ([0], 0) := by
    norm_num [wait_if_needed, pruneStamps]
  have h2 : wait_if_needed 1 [0] 60 = ([0, 60], 60) := by
    norm_num [wait_if_needed, pruneStamps]
  have h3 : wait_if_needed 1 [0, 60] 60 = ([0, 60, 60], 60) := by
    norm_num [wait_if_needed, pruneStamps]
  refine ⟨h1, h2, h3, ?_, ?_, by norm_num⟩
  · simp only [runLimiter, h1, h2, h3]
  · norm_num [countWindow, List.filter_cons, List.filter_nil, Bool.and_eq_true,
      decide_eq_true_eq]

lemma tradeURLOf_ne_nil {block : List String} {url : String}
    (hurl : tradeURLOf block = some url) : block ≠ [] := by
  intro h
  subst h
  simp [tradeURLOf] at hurl

lemma deliver_block_seen {seen block : List String} {url : String}
    (hurl : tradeURLOf block = some url) (hmem : url ∈ seen) :
    deliver_block seen block = (false, seen) := by
  unfold deliver_block
  rw [if_neg (tradeURLOf_ne_nil hurl), hurl]
  dsimp only
  rw [if_neg (fun hc => hc.2 hmem)]

lemma deliver_block_fresh {seen block : List String} {url : String}
    (hurl : tradeURLOf block = some url) (hne : url ≠ "") (hmem : url ∉ seen) :
    deliver_block seen block = (true, url :: seen) := by
  unfold deliver_block
  rw [if_neg (tradeURLOf_ne_nil hurl), hurl]
  dsimp only
  rw [if_pos ⟨hne, hmem⟩]

lemma repeat_block_seen {block : List String} {url : String}
    (hurl : tradeURLOf block = some url) :
    ∀ (n : ℕ) (seen : List String), url ∈ seen → repeat_block n seen block = (0, seen)
  | 0, seen, _ => rfl
  | n + 1, seen, hmem => by
      simp only [repeat_block, deliver_block_seen hurl hmem,
        repeat_block_seen hurl n seen hmem]
      simp

/-- Claim C9: processing the same alert block (carrying a dedup key not yet
seen) any number `n ≥ 1` of times between two retention resets delivers
exactly once — delivery happens iff the key is absent from the seen
set, and the key is added on delivery; after the unconditional clear of
`sent_alerts` (seen set `= []`) the same key is delivered again. -/
theorem dedup_delivers_exactly_once (block : List String) (url : String)
    (seen : List String) (n : ℕ)
    (hurl : tradeURLOf block = some url) (hne : url ≠ "")
    (hseen : url ∉ seen) (hn : 1 ≤ n) :
    deliver_block seen block = (true, url :: seen)
    ∧ (repeat_block n seen block).1 = 1
    ∧ (deliver_block [] block).1 = true := by
  have hdel : deliver_block seen block = (true, url :: seen) :=
    deliver_block_fresh hurl hne hseen
  have hdel0 : (deliver_block [] block).1 = true := by
    rw [deliver_block_fresh hurl hne (by simp)]
  refine ⟨hdel, ?_, hdel0⟩
  obtain ⟨m, rfl⟩ : ∃ m, n = m + 1 := ⟨n - 1, by omega⟩
  simp only [repeat_block, hdel,
    repeat_block_seen hurl m (url :: seen) (by simp)]
  simp

/-- Witness for C9: a one-line alert block with a trade URL, processed
twice from an empty seen set, is delivered exactly once. -/
theorem dedup_delivers_exactly_once_witness :
    tradeURLOf ["Trade URL: https://d.com/s/p\n"] =
      some "Trade URL: https://d.com/s/p"
    ∧ (repeat_block 2 [] ["Trade URL: https://d.com/s/p\n"]).1 = 1 :=
  ⟨by decide,
    (dedup_delivers_exactly_once ["Trade URL: https://d.com/s/p\n"]
      "Trade URL: https://d.com/s/p" [] 2
      (by decide) (by decide) (by decide) (by decide)).2.1⟩

/-- Claim C10: an alert block none of whose lines starts with the exact
prefix `"Trade URL: https://"` is never delivered and leaves the seen
set unchanged; conversely, any delivered block had a trade-URL line
extracted as its dedup key. -/
theorem no_trade_url_never_delivered (seen block : List String)
    (h : ∀ l ∈ block, pyStartsWith l "Trade URL: https://" = false) :
    deliver_block seen block = (false, seen)
    ∧ ∀ s b, (deliver_block s b).1 = true → ∃ u, tradeURLOf b = some u := by
  constructor
  · have hurl : tradeURLOf block = none := by
      unfold tradeURLOf
      rw [List.filter_eq_nil_iff.mpr (by intro a ha; rw [h a ha]; simp)]
      rfl
    by_cases hb : block = []
    · subst hb
      rfl
    · unfold deliver_block
      rw [if_neg hb, hurl]
  · intro s b hd
    unfold deliver_block at hd
    by_cases hb : b = []
    · rw [if_pos hb] at hd
      simp at hd
    · rw [if_neg hb] at hd
      cases hu : tradeURLOf b with
      | none =>
          rw [hu] at hd
          simp at hd
      | some u => exact ⟨u, rfl⟩


/-- Witness for C10: a block with a single non-URL line against a
nonempty seen set. -/
theorem no_trade_url_never_delivered_witness :
    (∀ l ∈ ["Name: PEPE"], pyStartsWith l "Trade URL: https://" = false)
    ∧ deliver_block ["k"] ["Name: PEPE"] = (false, ["k"]) :=
  ⟨by decide, (no_trade_url_never_delivered ["k"] ["Name: PEPE"] (by decide)).1⟩

end OnchainAlerts
